import Mathlib

/-!
Shallow embedding of the airline booking assistant (`airline.py`) of the
mini_ai_cookbook repository: the conversational state machine
(`process_message` / `handle_booking_flow`), the route catalog, the
seat-assignment helper and booking finalization.

Conventions of the embedding:
  - Python `str.lower()` and `str.title()` are modelled on the ASCII range
    (all catalog data, keywords and claim inputs are ASCII).
  - Python `random.randint(1, 30)` and `random.choice` over the six seat
    letters are modelled by an explicit stream of draws of type
    `Fin 30 × Fin 6` (the type captures the generator contract); the
    unbounded `while True` loop of `generate_seat_number` is modelled by
    recursion over the finite list of draws made available to the call,
    returning `none` when the loop has not returned within those draws.
  - File output (`create_ticket_file`, `generate_summary_report`) is
    modelled as succeeding; `datetime.now()` is an explicit `now` argument.
  - A `none` result of `processMessage` / `handleBookingFlow` models a
    Python exception that the code does not catch (the unguarded catalog
    lookup at the select_flight step), or a seat-draw loop that has not
    terminated.
-/

set_option maxRecDepth 100000

/-! ## ASCII models of the Python string primitives used by the code -/

/-- Is `c` an ASCII uppercase letter (code point 65..90)? -/
def isUpperC (c : Char) : Bool := 65 ≤ c.toNat && c.toNat ≤ 90

def asciiLowerC (c : Char) : Char :=
  if isUpperC c then Char.ofNat (c.toNat + 32) else c

def asciiUpperC (c : Char) : Char :=
  if 'a' ≤ c ∧ c ≤ 'z' then Char.ofNat (c.toNat - 32) else c

/-- Model of Python `str.lower()` (ASCII range). -/
def asciiLower (s : String) : String := String.mk (s.data.map asciiLowerC)

def asciiAlpha (c : Char) : Bool :=
  ('a' ≤ c && c ≤ 'z') || ('A' ≤ c && c ≤ 'Z')

/-- Model of Python `str.title()` (ASCII range): an alphabetic character is
uppercased when the previous character is not alphabetic, lowercased
otherwise. -/
def asciiTitleAux : Bool → List Char → List Char
  | _, [] => []
  | prevAlpha, c :: cs =>
      let c' := if asciiAlpha c then (if prevAlpha then asciiLowerC c else asciiUpperC c) else c
      c' :: asciiTitleAux (asciiAlpha c) cs

def asciiTitle (s : String) : String := String.mk (asciiTitleAux false s.data)

/-- Model of Python `str.strip()`: whitespace removed from both ends. -/
def pyStripL (l : List Char) : List Char :=
  ((l.dropWhile Char.isWhitespace).reverse.dropWhile Char.isWhitespace).reverse

def pyStrip (s : String) : String := String.mk (pyStripL s.data)

/-- Does `pat` occur at the head of `l`? (list-level helper) -/
def startsL : List Char → List Char → Bool
  | [], _ => true
  | _ :: _, [] => false
  | p :: ps, c :: cs => p == c && startsL ps cs

/-- Does `pat` occur somewhere in `l`? (list-level helper) -/
def hasSubL (pat : List Char) : List Char → Bool
  | [] => startsL pat []
  | c :: cs => startsL pat (c :: cs) || hasSubL pat cs

/-- Model of Python `pat in s` on strings (substring containment). -/
def containsStr (s pat : String) : Bool := hasSubL pat.data s.data

/-- Model of Python `s.startswith(pat)`. -/
def startsStr (s pat : String) : Bool := startsL pat.data s.data

/-- Model of Python `s[n:]` for a nonnegative index. -/
def strDropN (s : String) (n : Nat) : String := String.mk (s.data.drop n)

/-- Model of Python `str.split()` with no argument: split on runs of
whitespace, discarding empty pieces. -/
def pySplitWsAux : List Char → List Char → List String
  | [], acc => if acc.isEmpty then [] else [String.mk acc.reverse]
  | c :: cs, acc =>
      if c.isWhitespace then
        if acc.isEmpty then pySplitWsAux cs []
        else String.mk acc.reverse :: pySplitWsAux cs []
      else pySplitWsAux cs (c :: acc)

def pySplitWs (s : String) : List String := pySplitWsAux s.data []

/-- Model of Python `s.split(sep)` for a one-character separator: empty
pieces are kept. -/
def splitCommaAux : List Char → List Char → List (List Char)
  | [], acc => [acc.reverse]
  | c :: cs, acc => if c = ',' then acc.reverse :: splitCommaAux cs [] else splitCommaAux cs (c :: acc)

def pySplitComma (s : String) : List String := (splitCommaAux s.data []).map String.mk

/-- Model of Python `s.replace(" ", "_")` as used for ticket file names. -/
def pyReplaceSpace (s : String) : String :=
  String.mk (s.data.map (fun c => if c = ' ' then '_' else c))

def isDigitC (c : Char) : Bool := '0' ≤ c && c ≤ '9'

def digitsToNat : List Char → Nat → Option Nat
  | [], acc => some acc
  | c :: cs, acc =>
      if isDigitC c then digitsToNat cs (acc * 10 + (c.toNat - '0'.toNat)) else none

/-- Model of Python `int(s)` on typical inputs: surrounding whitespace is
stripped, then an optional sign followed by a nonempty digit string. -/
def pyInt (s : String) : Option Int :=
  match pyStripL s.data with
  | [] => none
  | '-' :: rest => if rest.isEmpty then none else (digitsToNat rest 0).map (fun n => -(n : Int))
  | '+' :: rest => if rest.isEmpty then none else (digitsToNat rest 0).map (fun n => (n : Int))
  | l => (digitsToNat l 0).map (fun n => (n : Int))

/-- Rendering of a possibly absent string in a Python f-string
(`None` renders as the text "None"). -/
def optStr : Option String → String
  | some s => s
  | none => "None"

def optIntStr : Option Int → String
  | some i => toString i
  | none => "None"

/-! ## Data model: flight catalog (`self.flights_data`) -/

structure Flight where
  airline : String
  departure : String
  price : Nat
  duration : String
deriving DecidableEq

abbrev Catalog := List (String × List (String × List Flight))

/-- The static route catalog, exactly the `flights_data` dictionary of
`AirlineAIAssistant.__init__`, in declaration order. -/
def flightsData : Catalog := [
  ("New York", [
    ("Los Angeles", [
      { airline := "SkyWings", departure := "08:00", price := 299, duration := "5h 30m" },
      { airline := "AeroFly", departure := "14:30", price := 329, duration := "5h 45m" },
      { airline := "CloudJet", departure := "19:15", price := 279, duration := "5h 20m" }]),
    ("Miami", [
      { airline := "SunAir", departure := "06:45", price := 189, duration := "3h 15m" },
      { airline := "TropicWings", departure := "16:20", price := 209, duration := "3h 05m" }]),
    ("Chicago", [
      { airline := "WindyCity Express", departure := "10:30", price := 159, duration := "2h 45m" },
      { airline := "GreatLakes Air", departure := "18:45", price := 179, duration := "2h 30m" }])]),
  ("Los Angeles", [
    ("New York", [
      { airline := "EastCoast Air", departure := "07:00", price := 319, duration := "5h 15m" },
      { airline := "TransContinental", departure := "12:45", price := 289, duration := "5h 25m" }]),
    ("Seattle", [
      { airline := "PacificWings", departure := "09:15", price := 149, duration := "2h 40m" },
      { airline := "NorthWest Air", departure := "15:30", price := 169, duration := "2h 50m" }])]),
  ("Miami", [
    ("New York", [
      { airline := "Atlantic Express", departure := "11:20", price := 199, duration := "3h 10m" },
      { airline := "Coastal Air", departure := "17:40", price := 219, duration := "3h 20m" }])]),
  ("Chicago", [
    ("New York", [
      { airline := "Midwest Express", departure := "08:30", price := 169, duration := "2h 35m" },
      { airline := "Central Air", departure := "14:15", price := 189, duration := "2h 40m" }])]),
  ("Seattle", [
    ("Los Angeles", [
      { airline := "Coast to Coast", departure := "13:00", price := 159, duration := "2h 45m" },
      { airline := "Western Wings", departure := "20:30", price := 139, duration := "2h 55m" }])])]

/-- Lookup in an association list, modelling a Python dict membership test
plus subscript (`k in d` and `d[k]`). -/
def lookupKey {α : Type} (k : String) : List (String × α) → Option α
  | [] => none
  | (k', v) :: rest => if k = k' then some v else lookupKey k rest

/-- Route lookup: `source in flights_data and destination in flights_data[source]`,
parameterized by the catalog held in `self.flights_data`. -/
def lookupRouteIn (cat : Catalog) (src dst : String) : Option (List Flight) :=
  match lookupKey src cat with
  | none => none
  | some dsts => lookupKey dst dsts

def lookupRoute (src dst : String) : Option (List Flight) := lookupRouteIn flightsData src dst

/-! ## `get_available_cities`: set of all city names, sorted -/

def dedupKeep : List String → List String
  | [] => []
  | c :: rest => c :: (dedupKeep rest).filter (fun x => x ≠ c)

/-- Lexicographic code-point comparison of character lists, the order
used by Python string comparison (and hence by `sorted`). -/
def lexLt : List Char → List Char → Bool
  | [], [] => false
  | [], _ :: _ => true
  | _ :: _, [] => false
  | a :: as, b :: bs =>
      if a.toNat < b.toNat then true
      else if b.toNat < a.toNat then false
      else lexLt as bs

def strLt (a b : String) : Bool := lexLt a.data b.data

def strInsert (x : String) : List String → List String
  | [] => [x]
  | y :: ys => if strLt x y then x :: y :: ys else y :: strInsert x ys

def strSort (l : List String) : List String := l.foldr strInsert []

def catalogCityNames : List String :=
  flightsData.map (fun p => p.1) ++ (flightsData.map (fun p => p.2.map (fun q => q.1))).flatten

/-- Model of `get_available_cities`: all origin keys and destination keys,
deduplicated and sorted (Python `sorted(...)`, lexicographic). -/
def get_available_cities : List String := strSort (dedupKeep catalogCityNames)

/-! ## Session, booking records and assistant state -/

inductive Step
  | start
  | getSource
  | getDestination
  | selectFlight
  | getPassengerDetails
deriving DecidableEq

structure Session where
  source : Option String
  destination : Option String
  selectedFlight : Option Flight
  passengerName : Option String
  passengerAge : Option Int
  step : Step
deriving DecidableEq

/-- The session produced by `reset_session` (and by `__init__`). -/
def emptySession : Session :=
  { source := none, destination := none, selectedFlight := none,
    passengerName := none, passengerAge := none, step := Step.start }

structure Booking where
  bookingNumber : String
  bookingDate : String
  passengerName : Option String
  passengerAge : Option Int
  source : Option String
  destination : Option String
  airline : String
  departureTime : String
  duration : String
  price : Nat
  seatNumber : String
deriving DecidableEq

/-- The mutable state of one `AirlineAIAssistant` object. -/
structure AState where
  session : Session
  bookings : List Booking
  bookingCounter : Nat
  seatAssignments : List (String × List String)
deriving DecidableEq

def initialState : AState :=
  { session := emptySession, bookings := [], bookingCounter := 1000, seatAssignments := [] }

/-! ## Seat assignment (`generate_seat_number`) -/

def seatLetters : List Char := ['A', 'B', 'C', 'D', 'E', 'F']

/-- The seat code produced from one draw: `f"{row}{seat_letter}"` with
`row = random.randint(1, 30)` and the letter chosen from A..F. -/
def seatCode (d : Fin 30 × Fin 6) : String :=
  toString (d.1.val + 1) ++ String.mk [seatLetters.getD d.2.val 'A']

/-- The `while True` loop of `generate_seat_number`, unrolled along the
finite stream of draws made available to the call: a drawn code already in
the issued list is rejected and the loop continues; an unissued code is
appended and returned; `none` means the loop has not returned within the
given draws. -/
def generateSeatAux (assigned : List String) : List (Fin 30 × Fin 6) → Option (String × List String)
  | [] => none
  | d :: ds =>
      let seat := seatCode d
      if seat ∈ assigned then generateSeatAux assigned ds
      else some (seat, assigned ++ [seat])

def setKey {α : Type} (k : String) (v : α) : List (String × α) → List (String × α)
  | [] => [(k, v)]
  | (k', v') :: rest => if k = k' then (k, v) :: rest else (k', v') :: setKey k v rest

/-! ## Response texts (the literal strings built by `airline.py`) -/

def citiesJoined : String := String.intercalate ", " get_available_cities

def welcomeMsg : String :=
  "🛫 Welcome to Airline AI Assistant! I can help you:\n\n✈️ Check flight availability\n🎫 Book flights step-by-step\n📊 Generate booking reports\n\nAvailable cities: "
  ++ citiesJoined ++ "\n\nHow can I assist you today?"

def checkUsageMsg : String :=
  "🔍 To check flight availability, please specify:\n\x27Check flights from [Source City] to [Destination City]\x27\n\nAvailable cities: "
  ++ citiesJoined

def bookPromptMsg : String :=
  "🎫 Let\x27s book your flight! \n\nStep 1: Which city are you departing from?\nAvailable cities: "
  ++ citiesJoined

def helpMsg : String :=
  "🤖 **Available Commands:**\n            \n✈️ **Flight Search:** \"Check flights from [City] to [City]\"\n🎫 **Book Flight:** \"Book\" or \"Book flight\"\n📊 **Generate Report:** \"Generate report\" or \"Summary\"\n🔄 **Reset/Start Over:** \"Reset\" or \"Start over\"\n❓ **Help:** \"Help\" or \"Commands\"\n\n**Available Cities:** New York, Los Angeles, Miami, Chicago, Seattle\n\n**Example:** \"Check flights from New York to Los Angeles\" "

def resetDoneMsg : String := "🔄 Session reset! How can I help you today?"

def fallbackMsg : String :=
  "🤔 I didn\x27t understand that. Type \x27help\x27 to see available commands, or try:\n• \x27Check flights from [city] to [city]\x27\n• \x27Book flight\x27\n• \x27Generate report\x27"

def handlerFallbackMsg : String :=
  "🤔 I didn\x27t understand that. Type \x27help\x27 for assistance or \x27reset\x27 to start over."

def sameCityMsg : String := "❌ Error: Source and destination cannot be the same city."

def noFlightsMsg (src dst : String) : String :=
  "❌ Sorry, no flights available from " ++ src ++ " to " ++ dst ++ "."

def checkFlightsHeader (src dst : String) : String :=
  "✈️ **Available flights from " ++ src ++ " to " ++ dst ++ ":**\n\n"

def renderCheckOptions : Nat → List Flight → String
  | _, [] => ""
  | i, fl :: rest =>
      "**Option " ++ toString i ++ ":**\n• Airline: " ++ fl.airline
      ++ "\n• Departure: " ++ fl.departure ++ "\n• Duration: " ++ fl.duration
      ++ "\n• Price: $" ++ toString fl.price ++ "\n\n" ++ renderCheckOptions (i + 1) rest

def sourceOkMsg (c : String) : String :=
  "✅ Departure city: " ++ c
  ++ "\n\nStep 2: Which city is your destination?\nAvailable destinations: "
  ++ String.intercalate ", " (get_available_cities.filter (fun x => x != c))

def invalidSourceMsg : String :=
  "❌ Please specify a valid departure city from: " ++ citiesJoined

def dupDestMsg : String :=
  "❌ Destination cannot be the same as departure city. Please choose a different destination."

def invalidDestMsg (src : Option String) : String :=
  "❌ Please specify a valid destination from: "
  ++ String.intercalate ", " (get_available_cities.filter (fun x => src != some x))

def renderFlowOptions : Nat → List Flight → String
  | _, [] => ""
  | i, fl :: rest =>
      "**Option " ++ toString i ++ ":** " ++ fl.airline
      ++ "\n• Departure: " ++ fl.departure ++ "\n• Duration: " ++ fl.duration
      ++ "\n• Price: $" ++ toString fl.price ++ "\n\n" ++ renderFlowOptions (i + 1) rest

def routeMsg (src dst : String) (flights : List Flight) : String :=
  "✅ Route: " ++ src ++ " → " ++ dst ++ "\n\n✈️ **Available Flights:**\n\n"
  ++ renderFlowOptions 1 flights
  ++ "Please select your flight by typing the option number (1, 2, 3, etc.)"

def selectedMsg (fl : Flight) : String :=
  "✅ **Flight Selected:**\n• Airline: " ++ fl.airline
  ++ "\n• Departure: " ++ fl.departure
  ++ "\n• Duration: " ++ fl.duration
  ++ "\n• Price: $" ++ toString fl.price
  ++ "\n\nStep 3: Please provide passenger details in this format:\n\x27Name: [Full Name], Age: [Age]\x27\n\nExample: \x27Name: John Smith, Age: 30\x27"

def invalidRangeMsg (n : Nat) : String :=
  "❌ Invalid option. Please select a number between 1 and " ++ toString n ++ "."

def invalidOptionMsg : String :=
  "❌ Please enter a valid flight option number (1, 2, 3, etc.)"

def invalidAgeRangeMsg : String := "❌ Please enter a valid age (0-120)."

def invalidAgeNumMsg : String := "❌ Please enter a valid age as a number."

def detailsFormatMsg : String :=
  "❌ Please provide details in the format: \x27Name: [Full Name], Age: [Age]\x27"

def bookingErrorMsg (e : String) : String :=
  "❌ Error completing booking: " ++ e ++ ". Please try again."

def ticketSavedMsg (name bookingNumber : String) : String :=
  "✅ Ticket saved as: " ++ pyReplaceSpace name ++ "_" ++ bookingNumber ++ ".txt"

def bookingConfirmMsg (bk : Booking) (ticketStatus : String) : String :=
  "🎉 **Booking Confirmed!**\n\n📋 **Booking Details:**\n• Booking Number: " ++ bk.bookingNumber
  ++ "\n• Passenger: " ++ optStr bk.passengerName ++ " (Age: " ++ optIntStr bk.passengerAge ++ ")"
  ++ "\n• Route: " ++ optStr bk.source ++ " → " ++ optStr bk.destination
  ++ "\n• Airline: " ++ bk.airline
  ++ "\n• Departure: " ++ bk.departureTime
  ++ "\n• Duration: " ++ bk.duration
  ++ "\n• Seat: " ++ bk.seatNumber
  ++ "\n• Price: $" ++ toString bk.price
  ++ "\n\n" ++ ticketStatus
  ++ "\n\nThank you for booking with us! ✈️\nType \x27book\x27 to make another booking or \x27report\x27 to see all bookings."

/-- Model of `generate_summary_report`: the returned message (the written
report file is outside the embedded state; the write is modelled as
succeeding). -/
def summaryReportMsg (bookings : List Booking) : String :=
  if bookings.isEmpty then "📊 No bookings to summarize yet."
  else
    "📊 Summary report generated successfully! File: summary_report.txt\n📈 Total bookings: "
    ++ toString bookings.length ++ " | Total revenue: $"
    ++ toString (bookings.map (fun b => b.price)).sum

/-! ## `check_flight_availability` and the check/search dispatch branch -/

def check_flight_availability_in (cat : Catalog) (source destination : String) : String :=
  if asciiLower source = asciiLower destination then sameCityMsg
  else
    match lookupRouteIn cat source destination with
    | some flights => checkFlightsHeader source destination ++ renderCheckOptions 1 flights
    | none => noFlightsMsg source destination

def check_flight_availability (source destination : String) : String :=
  check_flight_availability_in flightsData source destination

/-- The check/availability branch of `process_message`: on a message holding
both a "from" and a "to" token, take the single word after each, title-case
it and look the pair up; otherwise (or when the token scan fails) return the
usage text. -/
def checkBranch (m : String) : String :=
  if containsStr m "from" && containsStr m "to" then
    match (pySplitWs m).findIdx? (fun w => w == "from"), (pySplitWs m).findIdx? (fun w => w == "to") with
    | some fi, some ti =>
        if fi < ti ∧ fi + 1 < (pySplitWs m).length ∧ ti + 1 < (pySplitWs m).length then
          check_flight_availability (asciiTitle ((pySplitWs m).getD (fi + 1) ""))
            (asciiTitle ((pySplitWs m).getD (ti + 1) ""))
        else checkUsageMsg
    | _, _ => checkUsageMsg
  else checkUsageMsg

/-! ## Booking finalization (`complete_booking`) -/

/-- Model of `complete_booking`. The booking counter is incremented before
anything can fail; a missing selected flight raises inside the `try` (the
subscript on `None`) and is caught by the blanket `except`, which resets the
session; a missing passenger name raises inside `create_ticket_file` after
the seat and the booking record have already been stored. `none` models the
seat-draw loop not having returned within the supplied draws. -/
def completeBooking (st : AState) (now : String) (draws : List (Fin 30 × Fin 6)) : Option (String × AState) :=
  match st.session.selectedFlight with
  | none =>
      some (bookingErrorMsg "\x27NoneType\x27 object is not subscriptable",
            { st with bookingCounter := st.bookingCounter + 1, session := emptySession })
  | some fl =>
      let bookingNumber := "FL" ++ toString st.bookingCounter
      let flightKey := optStr st.session.source ++ "-" ++ optStr st.session.destination ++ "-" ++ fl.airline
      match generateSeatAux ((lookupKey flightKey st.seatAssignments).getD []) draws with
      | none => none
      | some (seat, assigned') =>
          let bk : Booking := {
            bookingNumber := bookingNumber, bookingDate := now,
            passengerName := st.session.passengerName, passengerAge := st.session.passengerAge,
            source := st.session.source, destination := st.session.destination,
            airline := fl.airline, departureTime := fl.departure,
            duration := fl.duration, price := fl.price, seatNumber := seat }
          let st1 : AState := {
            session := emptySession,
            bookings := st.bookings ++ [bk],
            bookingCounter := st.bookingCounter + 1,
            seatAssignments := setKey flightKey assigned' st.seatAssignments }
          match st.session.passengerName with
          | none =>
              some (bookingErrorMsg "\x27NoneType\x27 object has no attribute \x27replace\x27", st1)
          | some name =>
              some (bookingConfirmMsg bk (ticketSavedMsg name bookingNumber), st1)

/-! ## The step handler (`handle_booking_flow`) -/

/-- The catalog lookup keyed by the session fields, as performed (unguarded)
at the select_flight step: a missing key raises `KeyError`, modelled as
`none`. -/
def routeOfSession (sess : Session) : Option (List Flight) :=
  match sess.source, sess.destination with
  | some s, some d => lookupRoute s d
  | _, _ => none

/-- The guarded route check of the get_destination step
(`source in flights_data and destination in flights_data[source]`). -/
def sourceRoute (src : Option String) (dst : String) : Option (List Flight) :=
  match src with
  | some s => lookupRoute s dst
  | none => none

/-- The passenger-details scan: split on commas, strip each part, and take
the text after a case-insensitive `name:` or `age:` prefix (the last
matching part wins, as in the Python loop). -/
def scanParts : List String → Option String × Option String → Option String × Option String
  | [], acc => acc
  | p :: ps, (n, a) =>
      let q := pyStrip p
      if startsStr (asciiLower q) "name:" then scanParts ps (some (pyStrip (strDropN q 5)), a)
      else if startsStr (asciiLower q) "age:" then scanParts ps (n, some (pyStrip (strDropN q 4)))
      else scanParts ps (n, a)

def parseDetails (m : String) : Option String × Option String :=
  scanParts (pySplitComma m) (none, none)

/-- Model of `handle_booking_flow`: the per-step parser and transition. The
message has already been stripped and lowercased by `process_message`. -/
def handleBookingFlow (st : AState) (m now : String) (draws : List (Fin 30 × Fin 6)) : Option (String × AState) :=
  match st.session.step with
  | Step.getSource =>
      match get_available_cities.find? (fun c => containsStr (asciiLower m) (asciiLower c)) with
      | some c =>
          some (sourceOkMsg c,
                { st with session := { st.session with source := some c, step := Step.getDestination } })
      | none => some (invalidSourceMsg, st)
  | Step.getDestination =>
      match get_available_cities.find? (fun c => containsStr (asciiLower m) (asciiLower c)) with
      | some c =>
          if st.session.source = some c then some (dupDestMsg, st)
          else
            match sourceRoute st.session.source c with
            | some flights =>
                some (routeMsg (optStr st.session.source) c flights,
                      { st with session := { st.session with destination := some c, step := Step.selectFlight } })
            | none =>
                some (noFlightsMsg (optStr st.session.source) c, { st with session := emptySession })
      | none => some (invalidDestMsg st.session.source, st)
  | Step.selectFlight =>
      match pyInt (pyStrip m) with
      | none => some (invalidOptionMsg, st)
      | some k =>
          match routeOfSession st.session with
          | none => none
          | some flights =>
              if 1 ≤ k ∧ k ≤ (flights.length : Int) then
                match flights[k.toNat - 1]? with
                | some fl =>
                    some (selectedMsg fl,
                          { st with session := { st.session with selectedFlight := some fl, step := Step.getPassengerDetails } })
                | none => none
              else some (invalidRangeMsg flights.length, st)
  | Step.getPassengerDetails =>
      match parseDetails m with
      | (some n, some a) =>
          if n = "" ∨ a = "" then some (detailsFormatMsg, st)
          else
            match pyInt a with
            | none => some (invalidAgeNumMsg, st)
            | some age =>
                if age < 0 ∨ age > 120 then some (invalidAgeRangeMsg, st)
                else
                  completeBooking
                    { st with session := { st.session with passengerName := some n, passengerAge := some age } }
                    now draws
      | _ => some (detailsFormatMsg, st)
  | Step.start => some (handlerFallbackMsg, st)

/-! ## Top-level dispatch (`process_message`) -/

def greetingWords : List String := ["hello", "hi", "hey", "start"]
def checkWords : List String := ["check", "availability", "flights", "search"]
def bookWords : List String := ["book", "booking", "reserve"]
def reportWords : List String := ["report", "summary"]
def helpWords : List String := ["help", "commands"]
def resetWords : List String := ["reset", "start over", "cancel"]

/-- Model of `any(word in message for word in ws)`. -/
def anyWordIn (ws : List String) (m : String) : Bool := ws.any (fun w => containsStr m w)

/-- Model of `process_message`: the input line is stripped and lowercased,
then dispatched through the keyword chain; unmatched input is delegated to
the step handler when a booking is in progress. -/
def processMessage (st : AState) (raw now : String) (draws : List (Fin 30 × Fin 6)) : Option (String × AState) :=
  let m := asciiLower (pyStrip raw)
  if anyWordIn greetingWords m then
    some (welcomeMsg, { st with session := emptySession })
  else if anyWordIn checkWords m then
    some (checkBranch m, st)
  else if anyWordIn bookWords m then
    if st.session.step = Step.start then
      some (bookPromptMsg, { st with session := { st.session with step := Step.getSource } })
    else handleBookingFlow st m now draws
  else if anyWordIn reportWords m then
    some (summaryReportMsg st.bookings, st)
  else if anyWordIn helpWords m then
    some (helpMsg, st)
  else if anyWordIn resetWords m then
    some (resetDoneMsg, { st with session := emptySession })
  else
    if st.session.step ≠ Step.start then handleBookingFlow st m now draws
    else some (fallbackMsg, st)

/-! ## Concrete states and inputs used by the verification -/

/-- A fixed draw (row 1, letter A) for runs that need the seat generator. -/
def d00 : Fin 30 × Fin 6 := (⟨0, by decide⟩, ⟨0, by decide⟩)

/-- The state right after a "book" command from the initial state. -/
def stGetSource : AState :=
  { initialState with session := { emptySession with step := Step.getSource } }

/-- The state after "book" and a departure city "New York". -/
def stGetDest : AState :=
  { initialState with session :=
      { emptySession with source := some "New York", step := Step.getDestination } }

/-- The state after "book", "New York", "Miami": at the select_flight step
with the New York → Miami route stored. -/
def stSelNYMia : AState :=
  { initialState with session :=
      { emptySession with
        source := some "New York"
        destination := some "Miami"
        step := Step.selectFlight } }

/-- The two New York → Miami offers of the catalog. -/
def miamiOffers : List Flight :=
  [{ airline := "SunAir", departure := "06:45", price := 189, duration := "3h 15m" },
   { airline := "TropicWings", departure := "16:20", price := 209, duration := "3h 05m" }]

/-! ## Claim C1 -/

/-- Claim C1: the spec scenario "book" → "New York" → "Chicago" → "1" →
"Name: Ann Lee, Age: 29" is supposed to end with a confirmation holding
booking number FL1000 and carrier "WindyCity Express". On the code it does
not: the greeting dispatch of `process_message` tests `"hi" in message`,
and "hi" is a substring of "chicago", so the third input resets the session
and returns the welcome text; the remaining inputs hit the unrecognized
fallback, no booking is created, and the final response holds no FL1000. -/
theorem c1_chicago_input_resets_session :
    processMessage initialState "book" "2024-01-01 00:00:00" [d00]
      = some (bookPromptMsg, stGetSource)
    ∧ processMessage stGetSource "New York" "2024-01-01 00:00:00" [d00]
      = some (sourceOkMsg "New York", stGetDest)
    ∧ anyWordIn greetingWords (asciiLower (pyStrip "Chicago")) = true
    ∧ processMessage stGetDest "Chicago" "2024-01-01 00:00:00" [d00]
      = some (welcomeMsg, initialState)
    ∧ processMessage initialState "1" "2024-01-01 00:00:00" [d00]
      = some (fallbackMsg, initialState)
    ∧ processMessage initialState "Name: Ann Lee, Age: 29" "2024-01-01 00:00:00" [d00]
      = some (fallbackMsg, initialState)
    ∧ containsStr fallbackMsg "FL1000" = false
    ∧ containsStr fallbackMsg "WindyCity Express" = false
    ∧ initialState.bookings = [] :=
  ⟨rfl, rfl, rfl, rfl, rfl, rfl, rfl, rfl, rfl⟩

/-! ## Claim C2 -/

/-- Claim C2: the input "check flights from New York to Miami" is supposed
to return the two Miami offers (SunAir $189, TropicWings $209). On the code
it does not: the check branch takes only the single word after "from", so
the origin becomes "New" (and not "New York"), the catalog lookup fails,
and the response is the no-flights message naming "New" and "Miami". A
direct call with the full city names would have returned the offers. -/
theorem c2_check_extracts_single_word :
    processMessage initialState "check flights from New York to Miami" "2024-01-01 00:00:00" []
      = some (noFlightsMsg "New" "Miami", initialState)
    ∧ containsStr (noFlightsMsg "New" "Miami") "SunAir" = false
    ∧ containsStr (noFlightsMsg "New" "Miami") "TropicWings" = false
    ∧ containsStr (check_flight_availability "New York" "Miami") "SunAir" = true
    ∧ containsStr (check_flight_availability "New York" "Miami") "TropicWings" = true :=
  ⟨rfl, rfl, rfl, rfl, rfl⟩

/-! ## Claim C3 -/

/-- All 180 seat codes (rows 1..30 by letters A..F). -/
def allSeatCodes : List String :=
  (List.finRange 30).flatMap (fun r => (List.finRange 6).map (fun l => seatCode (r, l)))

theorem seatCode_mem_allSeatCodes (d : Fin 30 × Fin 6) : seatCode d ∈ allSeatCodes := by
  obtain ⟨r, l⟩ := d
  unfold allSeatCodes
  exact List.mem_flatMap.mpr ⟨r, List.mem_finRange r, List.mem_map_of_mem _ (List.mem_finRange l)⟩

/-- On an issued-seat list holding every drawable code, every draw is
rejected: the loop body never returns, however many draws are made. -/
theorem generateSeatAux_full_none (assigned : List String)
    (hfull : ∀ d : Fin 30 × Fin 6, seatCode d ∈ assigned) :
    ∀ draws : List (Fin 30 × Fin 6), generateSeatAux assigned draws = none := by
  intro draws
  induction draws with
  | nil => rfl
  | cons d ds ih => simp [generateSeatAux, hfull d, ih]

/-- Claim C3 counterexample: the claim says `generate_seat_number`
terminates with a fatal capacity error once all 180 seat codes are issued.
It does not terminate at all: with the full issued list, no finite number
of loop iterations ever produces a result (and the code has no capacity
error to raise). -/
theorem c3_counterexample :
    ¬ ∃ draws : List (Fin 30 × Fin 6), (generateSeatAux allSeatCodes draws).isSome = true := by
  rintro ⟨draws, h⟩
  rw [generateSeatAux_full_none allSeatCodes seatCode_mem_allSeatCodes draws] at h
  cases h

/-- Claim C3 (amended): once the issued-seat list for a flight key holds
all 180 seat codes, `generate_seat_number` never returns: every candidate
draw is rejected and the `while True` loop runs forever; no capacity error
is raised (the edge case is unhandled). -/
theorem c3_full_flight_loops_forever (assigned : List String)
    (hfull : ∀ d : Fin 30 × Fin 6, seatCode d ∈ assigned) :
    ∀ draws : List (Fin 30 × Fin 6), generateSeatAux assigned draws = none :=
  generateSeatAux_full_none assigned hfull

theorem c3_full_flight_loops_forever_witness :
    generateSeatAux allSeatCodes [d00, d00, d00] = none :=
  c3_full_flight_loops_forever allSeatCodes seatCode_mem_allSeatCodes [d00, d00, d00]

/-! ## Claim C5 -/

/-- A sequence of `generate_seat_number` calls against one flight key, each
call given its own stream of draws. A call whose loop does not return
within its draws ends the run (the process would be stuck in that call). -/
def runSeatCalls : List String → List (List (Fin 30 × Fin 6)) → List String
  | assigned, [] => assigned
  | assigned, ds :: rest =>
      match generateSeatAux assigned ds with
      | some (_, a') => runSeatCalls a' rest
      | none => assigned

/-- A successful `generate_seat_number` call returns a code that was not in
the issued list and appends exactly that code. -/
theorem generateSeatAux_some_eq (assigned : List String) (draws : List (Fin 30 × Fin 6))
    (s : String) (a' : List String) (h : generateSeatAux assigned draws = some (s, a')) :
    s ∉ assigned ∧ a' = assigned ++ [s] := by
  induction draws with
  | nil => cases h
  | cons d ds ih =>
      simp only [generateSeatAux] at h
      by_cases hm : seatCode d ∈ assigned
      · rw [if_pos hm] at h
        exact ih h
      · rw [if_neg hm] at h
        simp only [Option.some.injEq, Prod.mk.injEq] at h
        obtain ⟨h1, h2⟩ := h
        subst h1
        subst h2
        exact ⟨hm, rfl⟩

theorem runSeatCalls_nodup (calls : List (List (Fin 30 × Fin 6))) :
    ∀ assigned : List String, assigned.Nodup → (runSeatCalls assigned calls).Nodup := by
  induction calls with
  | nil => intro a h; exact h
  | cons ds rest ih =>
      intro a h
      simp only [runSeatCalls]
      cases hg : generateSeatAux a ds with
      | none => exact h
      | some p =>
          obtain ⟨s, a'⟩ := p
          obtain ⟨hnot, heq⟩ := generateSeatAux_some_eq a ds s a' hg
          subst heq
          refine ih _ ?_
          simp [List.nodup_append, h, hnot]

/-- Claim C5: starting from the empty issued-seat list of a fresh flight
key, any sequence of `generate_seat_number` calls leaves a pairwise
distinct list of issued seat codes (in particular while fewer than 180
seats are issued, as the claim states; the invariant in fact needs no
cap, because a full flight key never completes a call). -/
theorem c5_issued_seats_pairwise_distinct (calls : List (List (Fin 30 × Fin 6))) :
    (runSeatCalls [] calls).Nodup :=
  runSeatCalls_nodup calls [] List.nodup_nil

/-! ## Claim C7 -/

/-- Every outcome `complete_booking` returns carries the reset session:
the confirmation path calls `reset_session()` before returning, and the
blanket `except` path calls it too. -/
theorem completeBooking_resets (st : AState) (now : String) (draws : List (Fin 30 × Fin 6))
    (resp : String) (st' : AState) (h : completeBooking st now draws = some (resp, st')) :
    st'.session = emptySession := by
  simp only [completeBooking] at h
  split at h
  · simp only [Option.some.injEq, Prod.mk.injEq] at h
    obtain ⟨-, h2⟩ := h
    subst h2
    rfl
  · split at h
    · exact Option.noConfusion h
    · split at h
      · simp only [Option.some.injEq, Prod.mk.injEq] at h
        obtain ⟨-, h2⟩ := h
        subst h2
        rfl
      · simp only [Option.some.injEq, Prod.mk.injEq] at h
        obtain ⟨-, h2⟩ := h
        subst h2
        rfl

/-- Claim C7: booking finalization resets the Session to the empty state
(all fields None, step = start) on every outcome it returns, both the
confirmation and the internal-error message. -/
theorem c7_complete_booking_resets_session (st : AState) (now : String)
    (draws : List (Fin 30 × Fin 6)) (resp : String) (st' : AState)
    (h : completeBooking st now draws = some (resp, st')) :
    st'.session = emptySession :=
  completeBooking_resets st now draws resp st' h

def c7St : AState :=
  { initialState with session :=
      { emptySession with
        source := some "New York"
        destination := some "Miami"
        selectedFlight := some { airline := "SunAir", departure := "06:45", price := 189, duration := "3h 15m" }
        passengerName := some "ann lee"
        passengerAge := some 29
        step := Step.getPassengerDetails } }

def c7Booking : Booking :=
  { bookingNumber := "FL1000"
    bookingDate := "2024-01-01 00:00:00"
    passengerName := some "ann lee"
    passengerAge := some 29
    source := some "New York"
    destination := some "Miami"
    airline := "SunAir"
    departureTime := "06:45"
    duration := "3h 15m"
    price := 189
    seatNumber := "1A" }

def c7After : AState :=
  { session := emptySession
    bookings := [c7Booking]
    bookingCounter := 1001
    seatAssignments := [("New York-Miami-SunAir", ["1A"])] }

def c7Resp : String := bookingConfirmMsg c7Booking (ticketSavedMsg "ann lee" "FL1000")

theorem c7_complete_booking_resets_session_witness : c7After.session = emptySession :=
  c7_complete_booking_resets_session c7St "2024-01-01 00:00:00" [d00] c7Resp c7After rfl

/-! ## Claim C8 -/

/-- The state used to exhibit the duplicate-destination rejection: at the
get_destination step with origin Miami already stored. -/
def stDupDest : AState :=
  { initialState with session :=
      { emptySession with
        source := some "Miami"
        step := Step.getDestination } }

/-- Claim C8: any pair of equal origin/destination names is rejected by
`check_flight_availability` with the duplicate-city error before the
catalog is consulted (the result is the same for every catalog, including
one with no routes at all); and at the get_destination step a matched
destination equal to the stored origin is rejected with the whole state,
step included, unchanged. -/
theorem c8_duplicate_city_rejected :
    (∀ (cat : Catalog) (s d : String), s = d →
        check_flight_availability_in cat s d = sameCityMsg)
    ∧ (∀ (st : AState) (m now : String) (draws : List (Fin 30 × Fin 6)) (c : String),
        st.session.step = Step.getDestination →
        get_available_cities.find? (fun x => containsStr (asciiLower m) (asciiLower x)) = some c →
        st.session.source = some c →
        handleBookingFlow st m now draws = some (dupDestMsg, st)) := by
  constructor
  · intro cat s d hsd
    subst hsd
    simp [check_flight_availability_in]
  · intro st m now draws c hstep hfind hsrc
    have hh : handleBookingFlow st m now draws =
        match get_available_cities.find? (fun x => containsStr (asciiLower m) (asciiLower x)) with
        | some c =>
            if st.session.source = some c then some (dupDestMsg, st)
            else
              match sourceRoute st.session.source c with
              | some flights =>
                  some (routeMsg (optStr st.session.source) c flights,
                        { st with session := { st.session with destination := some c, step := Step.selectFlight } })
              | none =>
                  some (noFlightsMsg (optStr st.session.source) c, { st with session := emptySession })
        | none => some (invalidDestMsg st.session.source, st) := by
      unfold handleBookingFlow
      rw [hstep]
    rw [hh, hfind, hsrc]
    simp

theorem c8_duplicate_city_rejected_witness :
    check_flight_availability_in [] "Atlantis" "Atlantis" = sameCityMsg
    ∧ handleBookingFlow stDupDest "miami" "2024-01-01 00:00:00" [] = some (dupDestMsg, stDupDest) :=
  ⟨c8_duplicate_city_rejected.1 [] "Atlantis" "Atlantis" rfl,
   c8_duplicate_city_rejected.2 stDupDest "miami" "2024-01-01 00:00:00" [] "Miami" rfl rfl rfl⟩

/-! ## Claim C6 -/

/-- Claim C6: at the select_flight step with a stored route of N offers,
an input parsing as an integer k with 1 <= k <= N stores the k-th offer
(1-indexed) and advances to get_passenger_details; a non-numeric input or
an out-of-range k reprompts with the whole state unchanged. -/
theorem c6_select_flight (st : AState) (m now : String) (draws : List (Fin 30 × Fin 6))
    (flights : List Flight)
    (hstep : st.session.step = Step.selectFlight)
    (hroute : routeOfSession st.session = some flights) :
    (∀ k : Int, pyInt (pyStrip m) = some k → 1 ≤ k → k ≤ (flights.length : Int) →
      ∃ fl, flights[k.toNat - 1]? = some fl
        ∧ handleBookingFlow st m now draws
            = some (selectedMsg fl,
                { st with session := { st.session with selectedFlight := some fl, step := Step.getPassengerDetails } }))
    ∧ (pyInt (pyStrip m) = none →
        handleBookingFlow st m now draws = some (invalidOptionMsg, st))
    ∧ (∀ k : Int, pyInt (pyStrip m) = some k → ¬(1 ≤ k ∧ k ≤ (flights.length : Int)) →
        handleBookingFlow st m now draws = some (invalidRangeMsg flights.length, st)) := by
  have hh : handleBookingFlow st m now draws =
      match pyInt (pyStrip m) with
      | none => some (invalidOptionMsg, st)
      | some k =>
          match routeOfSession st.session with
          | none => none
          | some flights =>
              if 1 ≤ k ∧ k ≤ (flights.length : Int) then
                match flights[k.toNat - 1]? with
                | some fl =>
                    some (selectedMsg fl,
                          { st with session := { st.session with selectedFlight := some fl, step := Step.getPassengerDetails } })
                | none => none
              else some (invalidRangeMsg flights.length, st) := by
    unfold handleBookingFlow
    rw [hstep]
  refine ⟨?_, ?_, ?_⟩
  · intro k hk h1 h2
    have hlt : k.toNat - 1 < flights.length := by omega
    obtain ⟨fl, hfl⟩ : ∃ fl, flights[k.toNat - 1]? = some fl :=
      ⟨flights[k.toNat - 1], List.getElem?_eq_getElem hlt⟩
    refine ⟨fl, hfl, ?_⟩
    rw [hh, hk, hroute]
    simp [h1, h2, hfl]
  · intro hnone
    rw [hh, hnone]
  · intro k hk hnot
    rw [hh, hk, hroute]
    simp [hnot]

theorem c6_select_flight_witness :
    ∃ fl, miamiOffers[(2 : Int).toNat - 1]? = some fl
      ∧ handleBookingFlow stSelNYMia "2" "2024-01-01 00:00:00" []
          = some (selectedMsg fl,
              { stSelNYMia with session :=
                  { stSelNYMia.session with selectedFlight := some fl, step := Step.getPassengerDetails } }) :=
  (c6_select_flight stSelNYMia "2" "2024-01-01 00:00:00" [] miamiOffers rfl rfl).1 2 rfl
    (by decide) (by decide)

/-! ## Claim C4 -/

theorem lexLt_irrefl : ∀ l : List Char, lexLt l l = false := by
  intro l
  induction l with
  | nil => rfl
  | cons a as ih => simp [lexLt, ih]

theorem lexLt_asymm : ∀ a b : List Char, lexLt a b = true → lexLt b a = false := by
  intro a
  induction a with
  | nil =>
      intro b h
      cases b with
      | nil => cases h
      | cons y ys => rfl
  | cons x xs ih =>
      intro b h
      cases b with
      | nil => cases h
      | cons y ys =>
          simp only [lexLt] at h ⊢
          by_cases h1 : x.toNat < y.toNat
          · have h2 : ¬ y.toNat < x.toNat := by omega
            rw [if_neg h2, if_pos h1]
          · rw [if_neg h1] at h
            by_cases h2 : y.toNat < x.toNat
            · rw [if_pos h2] at h
              cases h
            · rw [if_neg h2] at h
              rw [if_neg h2, if_neg h1]
              exact ih ys h

theorem strLt_irrefl (x : String) : strLt x x = false := lexLt_irrefl x.data

theorem strLt_asymm (x y : String) (h : strLt x y = true) : strLt y x = false :=
  lexLt_asymm x.data y.data h

/-- On a list sorted strictly by `strLt`, `find?` returns the least
element satisfying the predicate: no earlier (smaller) element satisfies
it. -/
theorem find?_min_of_sorted (p : String → Bool) :
    ∀ l : List String, l.Pairwise (fun a b => strLt a b = true) →
      ∀ c, l.find? p = some c → ∀ x ∈ l, p x = true → strLt x c = false := by
  intro l
  induction l with
  | nil =>
      intro _ c hc
      cases hc
  | cons y ys ih =>
      intro hpw c hc x hx hpx
      by_cases hp : p y
      · rw [List.find?_cons_of_pos _ hp] at hc
        injection hc with hc
        subst hc
        rcases List.mem_cons.mp hx with h | hxs
        · rw [h]
          exact strLt_irrefl y
        · exact strLt_asymm y x ((List.pairwise_cons.mp hpw).1 x hxs)
      · rw [List.find?_cons_of_neg _ hp] at hc
        rcases List.mem_cons.mp hx with rfl | hxs
        · exact absurd hpx hp
        · exact ih (List.pairwise_cons.mp hpw).2 c hc x hxs hpx

/-- Claim C4 counterexample: the claim predicts that an input matching
both "New York" and "Chicago" stores "New York" (first in the catalog's
declared order: New York, Los Angeles, Miami, Chicago, Seattle). The code
scans the sorted city list and stores "Chicago". -/
theorem c4_counterexample :
    (handleBookingFlow stGetSource "chicago and new york" "2024-01-01 00:00:00" []).map
        (fun p => p.2.session.source) = some (some "Chicago")
    ∧ containsStr (asciiLower "chicago and new york") (asciiLower "New York") = true
    ∧ "Chicago" ≠ "New York" :=
  ⟨rfl, rfl, by decide⟩

/-- Claim C4 (amended): the city scan at get_source tries the known city
names in alphabetical (sorted) order — Chicago, Los Angeles, Miami,
New York, Seattle — not in the catalog's declared order, and the stored
origin is the alphabetically first city occurring case-insensitively as a
substring of the input. -/
theorem c4_city_scan_alphabetical (m c : String)
    (hfind : get_available_cities.find? (fun x => containsStr (asciiLower m) (asciiLower x)) = some c) :
    get_available_cities = ["Chicago", "Los Angeles", "Miami", "New York", "Seattle"]
    ∧ handleBookingFlow stGetSource m "2024-01-01 00:00:00" []
        = some (sourceOkMsg c,
            { stGetSource with session := { stGetSource.session with source := some c, step := Step.getDestination } })
    ∧ containsStr (asciiLower m) (asciiLower c) = true
    ∧ ∀ x ∈ get_available_cities, containsStr (asciiLower m) (asciiLower x) = true → strLt x c = false := by
  refine ⟨rfl, ?_, ?_, ?_⟩
  · have hh : handleBookingFlow stGetSource m "2024-01-01 00:00:00" [] =
        match get_available_cities.find? (fun x => containsStr (asciiLower m) (asciiLower x)) with
        | some c =>
            some (sourceOkMsg c,
                  { stGetSource with session := { stGetSource.session with source := some c, step := Step.getDestination } })
        | none => some (invalidSourceMsg, stGetSource) := rfl
    rw [hh, hfind]
  · have hpc := List.find?_some hfind
    exact hpc
  · exact find?_min_of_sorted _ get_available_cities (by decide) c hfind

theorem c4_city_scan_alphabetical_witness :
    get_available_cities = ["Chicago", "Los Angeles", "Miami", "New York", "Seattle"]
    ∧ handleBookingFlow stGetSource "miami" "2024-01-01 00:00:00" []
        = some (sourceOkMsg "Miami",
            { stGetSource with session := { stGetSource.session with source := some "Miami", step := Step.getDestination } })
    ∧ containsStr (asciiLower "miami") (asciiLower "Miami") = true
    ∧ ∀ x ∈ get_available_cities, containsStr (asciiLower "miami") (asciiLower x) = true → strLt x "Miami" = false :=
  c4_city_scan_alphabetical "miami" "Miami" rfl

/-! ## Claim C9 -/

/-- Exhaustive description of how one step-handler call can change the
session: unchanged, reset, origin stored (to get_destination), destination
stored with a route known to exist (to select_flight), or an offer stored
(to get_passenger_details, only when the session route lookup succeeded). -/
theorem handleBookingFlow_session_cases (st : AState) (m now : String)
    (draws : List (Fin 30 × Fin 6)) (resp : String) (st' : AState)
    (h : handleBookingFlow st m now draws = some (resp, st')) :
    st'.session = st.session
    ∨ st'.session = emptySession
    ∨ (∃ c, st'.session = { st.session with source := some c, step := Step.getDestination })
    ∨ (∃ c flights, sourceRoute st.session.source c = some flights
        ∧ st'.session = { st.session with destination := some c, step := Step.selectFlight })
    ∨ (∃ fl flights, routeOfSession st.session = some flights
        ∧ st'.session = { st.session with selectedFlight := some fl, step := Step.getPassengerDetails }) := by
  simp only [handleBookingFlow] at h
  repeat' split at h
  all_goals try exact Option.noConfusion h
  all_goals try exact Or.inr (Or.inl (completeBooking_resets _ _ _ _ _ h))
  all_goals simp only [Option.some.injEq, Prod.mk.injEq] at h
  all_goals obtain ⟨-, h2⟩ := h
  all_goals subst h2
  all_goals
    first
      | exact Or.inl rfl
      | exact Or.inr (Or.inl rfl)
      | exact Or.inr (Or.inr (Or.inl ⟨_, rfl⟩))
      | exact Or.inr (Or.inr (Or.inr (Or.inl ⟨_, _, by assumption, rfl⟩)))
      | exact Or.inr (Or.inr (Or.inr (Or.inr ⟨_, _, by assumption, rfl⟩)))

/-- Exhaustive description of one `process_message` call at the state
level: state unchanged, session reset, step advanced to get_source, or
delegation to the step handler on the normalized message. -/
theorem processMessage_session_cases (st : AState) (raw now : String)
    (draws : List (Fin 30 × Fin 6)) (resp : String) (st' : AState)
    (h : processMessage st raw now draws = some (resp, st')) :
    st' = st
    ∨ st'.session = emptySession
    ∨ st'.session = { st.session with step := Step.getSource }
    ∨ handleBookingFlow st (asciiLower (pyStrip raw)) now draws = some (resp, st') := by
  simp only [processMessage] at h
  repeat' split at h
  all_goals try exact Or.inr (Or.inr (Or.inr h))
  all_goals simp only [Option.some.injEq, Prod.mk.injEq] at h
  all_goals obtain ⟨-, h2⟩ := h
  all_goals subst h2
  all_goals
    first
      | exact Or.inl rfl
      | exact Or.inr (Or.inl rfl)
      | exact Or.inr (Or.inr (Or.inl rfl))

/-- The C9 invariant: at the select_flight and get_passenger_details steps
the origin and destination are both stored and the catalog has an offer
list for the pair. -/
def SessionRouteOK (sess : Session) : Prop :=
  (sess.step = Step.selectFlight ∨ sess.step = Step.getPassengerDetails) →
    ∃ s d flights, sess.source = some s ∧ sess.destination = some d ∧ lookupRoute s d = some flights

theorem handleBookingFlow_preserves_routeOK (st : AState) (m now : String)
    (draws : List (Fin 30 × Fin 6)) (resp : String) (st' : AState)
    (h : handleBookingFlow st m now draws = some (resp, st'))
    (hin : SessionRouteOK st.session) : SessionRouteOK st'.session := by
  rcases handleBookingFlow_session_cases st m now draws resp st' h with
    h1 | h1 | ⟨c, h1⟩ | ⟨c, flights, heq, h1⟩ | ⟨fl, flights, heq, h1⟩
  · rw [h1]; exact hin
  · rw [h1]
    intro hs
    simp [emptySession] at hs
  · rw [h1]
    intro hs
    simp at hs
  · rw [h1]
    intro _
    cases hsrc : st.session.source with
    | none =>
        rw [hsrc] at heq
        exact Option.noConfusion heq
    | some s =>
        rw [hsrc] at heq
        simp only [sourceRoute] at heq
        exact ⟨s, c, flights, by simp [hsrc], by simp, heq⟩
  · rw [h1]
    intro _
    cases hsrc : st.session.source with
    | none =>
        simp [routeOfSession, hsrc] at heq
    | some s =>
        cases hdst : st.session.destination with
        | none => simp [routeOfSession, hsrc, hdst] at heq
        | some d =>
            simp only [routeOfSession, hsrc, hdst] at heq
            exact ⟨s, d, flights, by simp [hsrc], by simp [hdst], heq⟩

theorem processMessage_preserves_routeOK (st : AState) (raw now : String)
    (draws : List (Fin 30 × Fin 6)) (resp : String) (st' : AState)
    (h : processMessage st raw now draws = some (resp, st'))
    (hin : SessionRouteOK st.session) : SessionRouteOK st'.session := by
  rcases processMessage_session_cases st raw now draws resp st' h with h1 | h1 | h1 | h1
  · rw [h1]; exact hin
  · rw [h1]
    intro hs
    simp [emptySession] at hs
  · rw [h1]
    intro hs
    simp at hs
  · exact handleBookingFlow_preserves_routeOK st _ now draws resp st' h1 hin

/-- The states reachable from the freshly constructed assistant by any
sequence of `process_message` calls (each with its own clock value and
random draws). -/
inductive Reach : AState → Prop
  | init : Reach initialState
  | step (st : AState) (raw now : String) (draws : List (Fin 30 × Fin 6))
      (resp : String) (st' : AState) :
      Reach st → processMessage st raw now draws = some (resp, st') → Reach st'

theorem reach_routeOK (st : AState) (h : Reach st) : SessionRouteOK st.session := by
  induction h with
  | init =>
      intro hs
      simp [initialState, emptySession] at hs
  | step st raw now draws resp st' _ hp ih =>
      exact processMessage_preserves_routeOK st raw now draws resp st' hp ih

/-- Claim C9: in every state reachable from the empty Session, whenever
the step is select_flight or get_passenger_details, origin and destination
are set and the catalog holds an offer list for the pair, so the unguarded
`flights_data[source][destination]` lookup at select_flight cannot fail. -/
theorem c9_select_flight_lookup_safe (st : AState) (hreach : Reach st)
    (hstep : st.session.step = Step.selectFlight ∨ st.session.step = Step.getPassengerDetails) :
    ∃ s d flights, st.session.source = some s ∧ st.session.destination = some d
      ∧ lookupRoute s d = some flights ∧ routeOfSession st.session = some flights := by
  obtain ⟨s, d, flights, h1, h2, h3⟩ := reach_routeOK st hreach hstep
  exact ⟨s, d, flights, h1, h2, h3, by simp [routeOfSession, h1, h2, h3]⟩

theorem c9_select_flight_lookup_safe_witness :
    ∃ s d flights, stSelNYMia.session.source = some s
      ∧ stSelNYMia.session.destination = some d
      ∧ lookupRoute s d = some flights
      ∧ routeOfSession stSelNYMia.session = some flights := by
  have r1 : Reach stGetSource :=
    Reach.step initialState "book" "2024-01-01 00:00:00" [] bookPromptMsg stGetSource Reach.init rfl
  have r2 : Reach stGetDest :=
    Reach.step stGetSource "new york" "2024-01-01 00:00:00" [] (sourceOkMsg "New York") stGetDest r1 rfl
  have r3 : Reach stSelNYMia :=
    Reach.step stGetDest "miami" "2024-01-01 00:00:00" []
      (routeMsg "New York" "Miami" miamiOffers) stSelNYMia r2 rfl
  exact c9_select_flight_lookup_safe stSelNYMia r3 (Or.inl rfl)

/-! ## Claim C10 -/

theorem toNat_char_ofNat_of_valid (n : Nat) (h : n.isValidChar) : (Char.ofNat n).toNat = n := by
  unfold Char.ofNat
  rw [dif_pos h]
  simp [Char.ofNatAux, Char.toNat, UInt32.toNat]

/-- ASCII lowercasing never produces an uppercase letter. -/
theorem asciiLowerC_not_upper (c : Char) : isUpperC (asciiLowerC c) = false := by
  unfold asciiLowerC
  by_cases h : isUpperC c = true
  · rw [if_pos h]
    unfold isUpperC at h ⊢
    simp only [Bool.and_eq_true, decide_eq_true_eq] at h
    have hv : (c.toNat + 32).isValidChar := Or.inl (by omega)
    rw [toNat_char_ofNat_of_valid _ hv]
    have h2 : ¬ (c.toNat + 32 ≤ 90) := by omega
    simp [h2]
  · rw [if_neg h]
    simpa using h

theorem mem_asciiLower (s : String) (ch : Char) (h : ch ∈ (asciiLower s).data) :
    ∃ c0, ch = asciiLowerC c0 := by
  have h' : ch ∈ s.data.map asciiLowerC := h
  obtain ⟨c0, -, rfl⟩ := List.mem_map.mp h'
  exact ⟨c0, rfl⟩

theorem pyStrip_data_subset (s : String) : ∀ c ∈ (pyStrip s).data, c ∈ s.data := by
  intro c hc
  have hc' : c ∈ pyStripL s.data := hc
  unfold pyStripL at hc'
  rw [List.mem_reverse] at hc'
  have h1 := (List.dropWhile_sublist _).subset hc'
  rw [List.mem_reverse] at h1
  exact (List.dropWhile_sublist _).subset h1

theorem strDropN_data_subset (s : String) (k : Nat) : ∀ c ∈ (strDropN s k).data, c ∈ s.data := by
  intro c hc
  exact List.drop_subset k s.data hc

/-- Every character of every comma-split piece comes from the split text
(plus the accumulator the splitter carries). -/
theorem splitCommaAux_chars : ∀ (l acc p : List Char),
    p ∈ splitCommaAux l acc → ∀ c ∈ p, c ∈ acc.reverse ++ l := by
  intro l
  induction l with
  | nil =>
      intro acc p hp c hc
      simp only [splitCommaAux, List.mem_singleton] at hp
      subst hp
      simpa using hc
  | cons x xs ih =>
      intro acc p hp c hc
      simp only [splitCommaAux] at hp
      by_cases hx : x = ','
      · rw [if_pos hx] at hp
        rcases List.mem_cons.mp hp with rfl | hp'
        · exact List.mem_append_left _ hc
        · have h2 := ih [] p hp' c hc
          simp only [List.reverse_nil, List.nil_append] at h2
          exact List.mem_append_right _ (List.mem_cons_of_mem x h2)
      · rw [if_neg hx] at hp
        have h2 := ih (x :: acc) p hp c hc
        rw [List.reverse_cons, List.append_assoc] at h2
        simpa using h2

/-- A name extracted by the passenger-details scan takes all of its
characters from one of the scanned parts (unless it was already in the
accumulator). -/
theorem scanParts_name : ∀ (parts : List String) (acc : Option String × Option String) (n : String),
    (scanParts parts acc).1 = some n →
    acc.1 = some n ∨ ∃ p ∈ parts, ∀ c ∈ n.data, c ∈ p.data := by
  intro parts
  induction parts with
  | nil =>
      intro acc n h
      exact Or.inl h
  | cons p ps ih =>
      intro acc n h
      obtain ⟨an, aa⟩ := acc
      simp only [scanParts] at h
      by_cases h1 : startsStr (asciiLower (pyStrip p)) "name:" = true
      · rw [if_pos h1] at h
        rcases ih _ n h with hacc | ⟨p', hp', hsub⟩
        · right
          refine ⟨p, List.mem_cons_self p ps, ?_⟩
          injection hacc with hacc
          subst hacc
          intro c hc
          exact pyStrip_data_subset _ c (strDropN_data_subset _ _ c (pyStrip_data_subset _ c hc))
        · exact Or.inr ⟨p', List.mem_cons_of_mem _ hp', hsub⟩
      · rw [if_neg h1] at h
        by_cases h2 : startsStr (asciiLower (pyStrip p)) "age:" = true
        · rw [if_pos h2] at h
          rcases ih _ n h with hacc | ⟨p', hp', hsub⟩
          · exact Or.inl hacc
          · exact Or.inr ⟨p', List.mem_cons_of_mem _ hp', hsub⟩
        · rw [if_neg h2] at h
          rcases ih _ n h with hacc | ⟨p', hp', hsub⟩
          · exact Or.inl hacc
          · exact Or.inr ⟨p', List.mem_cons_of_mem _ hp', hsub⟩

/-- The name extracted by `parseDetails` takes all of its characters from
the parsed message. -/
theorem parseDetails_name_chars (m n : String) (h : (parseDetails m).1 = some n) :
    ∀ c ∈ n.data, c ∈ m.data := by
  unfold parseDetails at h
  rcases scanParts_name (pySplitComma m) (none, none) n h with h0 | ⟨p, hp, hsub⟩
  · exact Option.noConfusion h0
  · intro c hc
    have hcp := hsub c hc
    unfold pySplitComma at hp
    obtain ⟨l, hl, rfl⟩ := List.mem_map.mp hp
    have h2 := splitCommaAux_chars m.data [] l hl c hcp
    simpa using h2

/-- The bookings list after `complete_booking`: unchanged on the
no-selected-flight error path, otherwise extended by one record carrying
the session passenger name. -/
theorem completeBooking_bookings (st : AState) (now : String) (draws : List (Fin 30 × Fin 6))
    (resp : String) (st' : AState) (h : completeBooking st now draws = some (resp, st')) :
    st'.bookings = st.bookings
    ∨ ∃ bk, st'.bookings = st.bookings ++ [bk] ∧ bk.passengerName = st.session.passengerName := by
  simp only [completeBooking] at h
  repeat' split at h
  all_goals try exact Option.noConfusion h
  all_goals simp only [Option.some.injEq, Prod.mk.injEq] at h
  all_goals obtain ⟨-, h2⟩ := h
  all_goals subst h2
  · exact Or.inl rfl
  · exact Or.inr ⟨_, rfl, rfl⟩
  · exact Or.inr ⟨_, rfl, rfl⟩

/-- The bookings list after one step-handler call: unchanged except on the
get_passenger_details success path, where one record with the parsed name
is appended. -/
theorem handleBookingFlow_bookings (st : AState) (m now : String)
    (draws : List (Fin 30 × Fin 6)) (resp : String) (st' : AState)
    (h : handleBookingFlow st m now draws = some (resp, st')) :
    st'.bookings = st.bookings
    ∨ (st.session.step = Step.getPassengerDetails
       ∧ ∃ n a, parseDetails m = (some n, some a)
         ∧ ∃ bk, st'.bookings = st.bookings ++ [bk] ∧ bk.passengerName = some n) := by
  simp only [handleBookingFlow] at h
  repeat' split at h
  all_goals try exact Option.noConfusion h
  all_goals try
    exact (completeBooking_bookings _ _ _ _ _ h).elim
      (fun h1 => Or.inl h1)
      (fun ⟨bk2, hb1, hb2⟩ => Or.inr ⟨by assumption, _, _, by assumption, bk2, hb1, hb2⟩)
  all_goals simp only [Option.some.injEq, Prod.mk.injEq] at h
  all_goals obtain ⟨-, h2⟩ := h
  all_goals subst h2
  all_goals exact Or.inl rfl

theorem processMessage_bookings (st : AState) (raw now : String)
    (draws : List (Fin 30 × Fin 6)) (resp : String) (st' : AState)
    (h : processMessage st raw now draws = some (resp, st')) :
    st'.bookings = st.bookings
    ∨ (st.session.step = Step.getPassengerDetails
       ∧ ∃ n a, parseDetails (asciiLower (pyStrip raw)) = (some n, some a)
         ∧ ∃ bk, st'.bookings = st.bookings ++ [bk] ∧ bk.passengerName = some n) := by
  simp only [processMessage] at h
  repeat' split at h
  all_goals try exact handleBookingFlow_bookings _ _ _ _ _ _ h
  all_goals simp only [Option.some.injEq, Prod.mk.injEq] at h
  all_goals obtain ⟨-, h2⟩ := h
  all_goals subst h2
  all_goals exact Or.inl rfl

/-- Claim C10: `process_message` strips and lowercases the raw input line
before any parsing, so a booking record produced by an input at the
get_passenger_details step carries exactly the name parsed out of the
lowercased input, and that name holds no uppercase ASCII letter. -/
theorem c10_passenger_name_lowercased (st : AState) (raw now : String)
    (draws : List (Fin 30 × Fin 6)) (resp : String) (st' : AState) (bk : Booking)
    (_hstep : st.session.step = Step.getPassengerDetails)
    (hp : processMessage st raw now draws = some (resp, st'))
    (hbk : st'.bookings = st.bookings ++ [bk]) :
    ∃ n, bk.passengerName = some n
      ∧ (parseDetails (asciiLower (pyStrip raw))).1 = some n
      ∧ ∀ ch ∈ n.data, isUpperC ch = false := by
  rcases processMessage_bookings st raw now draws resp st' hp with h1 | ⟨-, n, a, hpd, bk2, hbb, hbn⟩
  · rw [h1] at hbk
    have hlen := congrArg List.length hbk
    simp at hlen
  · have hbk2 : bk = bk2 := by
      have he : st.bookings ++ [bk] = st.bookings ++ [bk2] := hbk.symm.trans hbb
      have h3 := List.append_cancel_left he
      simpa using h3
    subst hbk2
    have h1 : (parseDetails (asciiLower (pyStrip raw))).1 = some n := by rw [hpd]
    refine ⟨n, hbn, h1, ?_⟩
    intro ch hch
    have hmem := parseDetails_name_chars _ n h1 ch hch
    obtain ⟨c0, rfl⟩ := mem_asciiLower _ _ hmem
    exact asciiLowerC_not_upper c0

/-- A state at the get_passenger_details step (route New York → Miami,
SunAir selected), used to exercise the C10 theorem. -/
def stPD : AState :=
  { initialState with session :=
      { emptySession with
        source := some "New York"
        destination := some "Miami"
        selectedFlight := some { airline := "SunAir", departure := "06:45", price := 189, duration := "3h 15m" }
        step := Step.getPassengerDetails } }

theorem c10_passenger_name_lowercased_witness :
    ∃ n, c7Booking.passengerName = some n
      ∧ (parseDetails (asciiLower (pyStrip "Name: Ann Lee, Age: 29"))).1 = some n
      ∧ ∀ ch ∈ n.data, isUpperC ch = false :=
  c10_passenger_name_lowercased stPD "Name: Ann Lee, Age: 29" "2024-01-01 00:00:00" [d00]
    c7Resp c7After c7Booking rfl rfl rfl
